import Mathlib

/-!
Shallow embedding of the `pp` file-upload HTTP service (Go) and verification
of its specification claims.

Source layout:
* `src/cmd/main.go` — the server: `/add` upload handler, middleware chain
  (Logging, CORS, Recovery, Auth), persistence via a prepared insert.
* `src/internal/middlewares/auth.go` — package `middlewares`: `Auth` and
  `CORSMiddleware` (textually the same as the copies in `main.go`).
* `src/internal/config/config.go` — package `config`: `LoadConfig`.

Modelling conventions:
* Machine-level HTTP is abstracted to a `Request` record; Go's canonical
  header lookup `r.Header.Get` is modelled as a total function
  `header : String → String` returning `""` for absent headers.
* The `http.ResponseWriter` is a state record `RW` with Go's write-once
  status semantics (`WriteHeader` after the first call is a no-op,
  `Write` commits status 200 when none was written).
* The structured logger is modelled as an event list threaded through the
  per-request state; durations and timestamps are not modelled.
* The database is a pure record `DB`: a row list, the next SERIAL id, and
  an optional pending failure message standing for backend errors.
* Go panics are modelled by the `HRes.panicked` constructor; `recover`
  corresponds to pattern-matching on it.
-/

/-- A byte string, as a list of byte values. -/
abbrev Bytes := List Nat

/-- One structured log record: level, message, and key/value attributes.
Durations are not modelled, so the logging interceptor's duration
attribute is omitted. -/
structure LogEvent where
  level : String
  msg : String
  attrs : List (String × String)
deriving DecidableEq

/-- The observable state of Go's `http.ResponseWriter`: response headers,
the committed status code (none until `WriteHeader` runs), and the body
written so far. -/
structure RW where
  headers : List (String × String)
  status : Option Nat
  body : String
deriving DecidableEq

/-- A fresh response writer, as handed to each request by the server. -/
def RW.empty : RW := ⟨[], none, ""⟩

/-- Go `Header().Set(k, v)`: replace any existing value for `k`. -/
def RW.setHeader (rw : RW) (k v : String) : RW :=
  { rw with headers := rw.headers.filter (fun p => ¬ p.1 = k) ++ [(k, v)] }

/-- Go `Header().Del(k)`. -/
def RW.delHeader (rw : RW) (k : String) : RW :=
  { rw with headers := rw.headers.filter (fun p => ¬ p.1 = k) }

/-- Look up a response header (first match). -/
def RW.getHeader (rw : RW) (k : String) : Option String :=
  (rw.headers.find? (fun p => p.1 = k)).map (fun p => p.2)

/-- Go `WriteHeader(code)`: commits the status once; later calls are
ignored. -/
def RW.writeHeader (rw : RW) (code : Nat) : RW :=
  if rw.status.isSome then rw else { rw with status := some code }

/-- Go `Write(bs)`: commits status 200 when none is set, then appends to
the body. -/
def RW.write (rw : RW) (s : String) : RW :=
  let rw := rw.writeHeader 200
  { rw with body := rw.body ++ s }

/-- Go `http.Error(w, msg, code)`: deletes Content-Length, sets the
plain-text content type and nosniff headers, writes the status, and
prints `msg` followed by a newline. -/
def httpError (rw : RW) (msg : String) (code : Nat) : RW :=
  ((((rw.delHeader "Content-Length").setHeader
      "Content-Type" "text/plain; charset=utf-8").setHeader
      "X-Content-Type-Options" "nosniff").writeHeader code).write (msg ++ "\n")

/-- One file part of a multipart form: the form field name, the declared
filename, the part's Content-Type header, and the raw content bytes. -/
structure FilePart where
  fieldName : String
  filename : String
  contentType : String
  content : Bytes
deriving DecidableEq

/-- The request body as seen by the multipart machinery: either
syntactically malformed, or a well-formed sequence of file parts. -/
inductive MultipartBody where
  | malformed : MultipartBody
  | wellFormed : List FilePart → MultipartBody
deriving DecidableEq

/-- An inbound HTTP request. `header` models Go's canonicalised
`r.Header.Get`, returning `""` for a missing header. -/
structure Request where
  method : String
  path : String
  header : String → String
  body : MultipartBody

/-- Total byte size of a multipart body's parts. -/
def MultipartBody.totalSize : MultipartBody → Nat
  | .malformed => 0
  | .wellFormed ps => (ps.map (fun p => p.content.length)).sum

/-- Modelled from the spec: Go stdlib `r.ParseMultipartForm(maxMemory)`
(library code, not in `src/`). The spec states that "exceeding the bound
or malformed encoding yields `400 Bad Request`", i.e. the parse fails on a
malformed body or one whose size exceeds the bound. -/
def parseMultipartForm (maxMemory : Nat) (b : MultipartBody) :
    Except Unit (List FilePart) :=
  match b with
  | .malformed => .error ()
  | .wellFormed ps =>
      if (ps.map (fun p => p.content.length)).sum > maxMemory then .error ()
      else .ok ps

/-- Go stdlib `r.FormFile(name)`: the first file part registered under the
field `name`, or an error when there is none. -/
def formFile (ps : List FilePart) (name : String) : Except Unit FilePart :=
  match ps.find? (fun p => p.fieldName = name) with
  | some p => .ok p
  | none => .error ()

/-- Modelled from the Go stdlib: `multipart.FileHeader.Size` is the byte
size of the part's content as written by the parser. -/
def FilePart.headerSize (p : FilePart) : Nat := p.content.length

/-- Go `string(rune(n))` for a non-negative `n`: the UTF-8 string holding
the single code point `n`, or the replacement character when `n` is not a
valid code point. -/
def goRuneString (n : Nat) : String :=
  if n < 0xd800 ∨ (0xe000 ≤ n ∧ n < 0x110000) then
    String.mk [Char.ofNat n]
  else
    "�"

/-- A persisted row of the `files` table (`created_at` is server time and
is not modelled). -/
structure StoredFile where
  id : Nat
  filename : String
  mimeType : String
  size : Nat
  content : Bytes
deriving DecidableEq

/-- The database state behind the prepared insert statement: rows, the
next SERIAL id, and an optional pending backend failure message. -/
structure DB where
  rows : List StoredFile
  nextId : Nat
  fail : Option String
deriving DecidableEq

/-- The prepared statement
`INSERT INTO files (filename, mime_type, size, content) VALUES (...) RETURNING id`:
a single atomic insert returning the generated id, or a backend error. -/
def DB.insert (db : DB) (filename mimeType : String) (size : Nat)
    (content : Bytes) : Except String (Nat × DB) :=
  match db.fail with
  | some m => .error m
  | none =>
      .ok (db.nextId,
        { rows := db.rows ++ [⟨db.nextId, filename, mimeType, size, content⟩],
          nextId := db.nextId + 1,
          fail := none })

/-- The per-request mutable world: response writer, database, log sink. -/
structure St where
  rw : RW
  db : DB
  log : List LogEvent
deriving DecidableEq

/-- Outcome of running a handler: normal completion, or a Go panic
carrying the state at the moment of panicking and the panic value. -/
inductive HRes where
  | ok : St → HRes
  | panicked : St → String → HRes
deriving DecidableEq

/-- An `http.Handler`'s `ServeHTTP`. -/
abbrev GoHandler := Request → St → HRes

/-- The state reached by a handler, whether or not it panicked. -/
def HRes.state : HRes → St
  | .ok st => st
  | .panicked st _ => st

/-- Whether the handler run ended in an uncaught panic. -/
def HRes.isPanic : HRes → Bool
  | .ok _ => false
  | .panicked _ _ => true

/-- The response status of a handler run. -/
def HRes.status (h : HRes) : Option Nat := h.state.rw.status

/-- A response header of a handler run. -/
def HRes.respHeader (h : HRes) (k : String) : Option String :=
  h.state.rw.getHeader k

/-- The response body of a handler run. -/
def HRes.bodyOut (h : HRes) : String := h.state.rw.body

/-- The database after a handler run. -/
def HRes.dbOut (h : HRes) : DB := h.state.db

/-- The log after a handler run. -/
def HRes.logOut (h : HRes) : List LogEvent := h.state.log

/-- The `/add` upload handler closure from `src/cmd/main.go`:
method check, `ParseMultipartForm(10 << 20)`, `FormFile("file")`,
`io.ReadAll` (total here: parts are in-memory byte lists), then the
prepared insert with `(Filename, Content-Type, Size, content)`, and on
success `WriteHeader(201)` followed by the success body built with Go's
`string(rune(fileID))` conversion. -/
def addHandler (r : Request) (st : St) : HRes :=
  if r.method ≠ "POST" then
    .ok { st with rw := httpError st.rw "Method not allowed" 405 }
  else
    match parseMultipartForm (10 <<< 20) r.body with
    | .error _ => .ok { st with rw := httpError st.rw "Failed to parse form" 400 }
    | .ok parts =>
      match formFile parts "file" with
      | .error _ => .ok { st with rw := httpError st.rw "Failed to get file" 400 }
      | .ok part =>
        let content := part.content
        match st.db.insert part.filename part.contentType part.headerSize content with
        | .error m =>
            .ok { st with
              log := st.log ++
                [⟨"ERROR", "Failed to save file to database", [("error", m)]⟩],
              rw := httpError st.rw "Failed to save file to database" 500 }
        | .ok (fileID, db) =>
            .ok { st with
              db := db,
              rw := (st.rw.writeHeader 201).write
                ("File uploaded successfully with ID: " ++ goRuneString fileID) }

/-- The `http.ServeMux` built in `main`: the single pattern `"/add"`
(exact match), every other path answered by the mux's not-found handler. -/
def serveMux (r : Request) (st : St) : HRes :=
  if r.path = "/add" then addHandler r st
  else .ok { st with rw := httpError st.rw "404 page not found" 404 }

/-- `LoggingMiddleware` from `src/cmd/main.go`: runs the inner handler,
then emits one "request completed" record with method and path (the
elapsed-duration attribute is not modelled). If the inner handler
panics, the deferred-less log line never runs and the panic propagates. -/
def LoggingMiddleware (next : GoHandler) : GoHandler := fun r st =>
  match next r st with
  | .ok st' =>
      .ok { st' with
        log := st'.log ++
          [⟨"INFO", "request completed", [("method", r.method), ("path", r.path)]⟩] }
  | .panicked st' v => .panicked st' v

/-- `CORSMiddleware` from `src/cmd/main.go`: sets the three permissive
CORS headers, answers `OPTIONS` with an immediate `200`, and otherwise
delegates to the inner handler. -/
def CORSMiddleware (next : GoHandler) : GoHandler := fun r st =>
  let rw :=
    ((st.rw.setHeader "Access-Control-Allow-Origin" "*").setHeader
      "Access-Control-Allow-Methods" "POST, GET, OPTIONS").setHeader
      "Access-Control-Allow-Headers" "Content-Type"
  let st := { st with rw := rw }
  if r.method = "OPTIONS" then
    .ok { st with rw := st.rw.writeHeader 200 }
  else
    next r st

/-- `RecoveryMiddleware` from `src/cmd/main.go`: runs the inner handler
under a deferred `recover`; on a panic it logs "panic recovered" at error
level and calls `http.Error(w, "Internal Server Error", 500)` on the
writer as the panicking code left it. -/
def RecoveryMiddleware (next : GoHandler) : GoHandler := fun r st =>
  match next r st with
  | .ok st' => .ok st'
  | .panicked st' v =>
      .ok { st' with
        log := st'.log ++ [⟨"ERROR", "panic recovered", [("error", v)]⟩],
        rw := httpError st'.rw "Internal Server Error" 500 }

/-- `Auth` from `src/cmd/main.go`: compares `r.Header.Get("Authorization")`
against the secret with string equality; on mismatch it logs an
"unauthorized access" warning with the path and answers `401` without
calling the inner handler. -/
def Auth (secret : String) (next : GoHandler) : GoHandler := fun r st =>
  if r.header "Authorization" ≠ secret then
    .ok { st with
      log := st.log ++ [⟨"WARN", "unauthorized access", [("path", r.path)]⟩],
      rw := httpError st.rw "Unauthorized" 401 }
  else
    next r st

/-- `Auth` from `src/internal/middlewares/auth.go` (package
`middlewares`): textually the same logic as the `main`-package copy. -/
def middlewares.Auth (secret : String) (next : GoHandler) : GoHandler := fun r st =>
  if r.header "Authorization" ≠ secret then
    .ok { st with
      log := st.log ++ [⟨"WARN", "unauthorized access", [("path", r.path)]⟩],
      rw := httpError st.rw "Unauthorized" 401 }
  else
    next r st

/-- `CORSMiddleware` from `src/internal/middlewares/auth.go` (package
`middlewares`): textually the same logic as the `main`-package copy. -/
def middlewares.CORSMiddleware (next : GoHandler) : GoHandler := fun r st =>
  let rw :=
    ((st.rw.setHeader "Access-Control-Allow-Origin" "*").setHeader
      "Access-Control-Allow-Methods" "POST, GET, OPTIONS").setHeader
      "Access-Control-Allow-Headers" "Content-Type"
  let st := { st with rw := rw }
  if r.method = "OPTIONS" then
    .ok { st with rw := st.rw.writeHeader 200 }
  else
    next r st

/-- The secret literal `main` passes to `Auth` when composing the chain:
`Auth(s, "your-secret-here")`. -/
def mainAuthSecret : String := "your-secret-here"

/-- The middleware injection sequence of `main`, verbatim:
`handler := mux; handler = LoggingMiddleware(s)(handler);
handler = CORSMiddleware(handler); handler = RecoveryMiddleware(s)(handler);
handler = Auth(s, secret)(handler)`. Each assignment wraps the previous
handler, so the interceptor applied last ends up outermost. -/
def mainHandler (secret : String) (inner : GoHandler) : GoHandler :=
  let handler := inner
  let handler := LoggingMiddleware handler
  let handler := CORSMiddleware handler
  let handler := RecoveryMiddleware handler
  let handler := Auth secret handler
  handler

/-- The handler the server in `main` actually serves: the injection
sequence applied to the mux with the hard-coded secret literal. -/
def composedHandler : GoHandler := mainHandler mainAuthSecret serveMux

/-- Modelled from the spec's words (§4.1): the composition order the spec
asserts, outermost to innermost logging → CORS → recovery → auth →
terminal handler. Written for comparison against `mainHandler`, which is
translated from the code. -/
def specOrderHandler (secret : String) (inner : GoHandler) : GoHandler :=
  LoggingMiddleware (CORSMiddleware (RecoveryMiddleware (Auth secret inner)))

/-- The three CORS headers applied to a writer, as `CORSMiddleware` sets
them; used to phrase response states in theorems. -/
def corsHeadersOn (rw : RW) : RW :=
  ((rw.setHeader "Access-Control-Allow-Origin" "*").setHeader
    "Access-Control-Allow-Methods" "POST, GET, OPTIONS").setHeader
    "Access-Control-Allow-Headers" "Content-Type"

/-- `Config` from `src/internal/config/config.go`. -/
structure Config where
  AuthSecret : String
deriving DecidableEq

/-- `LoadConfig` from `src/internal/config/config.go`: reads the
environment variable `auth` (the environment is modelled as a total
function, `""` for an unset variable); falls back to the literal
`"default"` when it is empty. The fatal exit on a missing `.env` file is
not modelled. -/
def LoadConfig (env : String → String) : Config :=
  let secret := env "auth"
  let secret := if secret = "" then "default" else secret
  { AuthSecret := secret }

/-- Whether a multipart body exceeds the 10 MiB in-memory bound the
handler passes to the parse (claim C6's size condition). -/
def MultipartBody.exceedsBound : MultipartBody → Bool
  | .malformed => false
  | .wellFormed ps => decide ((ps.map (fun p => p.content.length)).sum > 10 <<< 20)

/-- Whether a well-formed multipart body has no part under the form field
`file` (claim C6's missing-field condition). -/
def MultipartBody.lacksFileField : MultipartBody → Bool
  | .malformed => false
  | .wellFormed ps => (ps.find? (fun p => p.fieldName = "file")).isNone

/-- C1 counterexample. The claim asserts the nesting
logging → CORS → recovery → auth → upload handler (outermost to
innermost), under which the CORS interceptor would act before auth — so an
`OPTIONS` request without credentials would get `200` with CORS headers,
and logging, outermost, would record every request. On the concrete
request `OPTIONS /add` with no `Authorization` header, the handler
composed in `main` answers `401` with no CORS header and no
"request completed" log record, while the nesting the claim describes
answers `200` with the CORS origin header: auth, not logging, receives
requests first. -/
theorem C1_counterexample :
    (composedHandler ⟨"OPTIONS", "/add", fun _ => "", .wellFormed []⟩
        ⟨RW.empty, ⟨[], 1, none⟩, []⟩).status = some 401
    ∧ (composedHandler ⟨"OPTIONS", "/add", fun _ => "", .wellFormed []⟩
        ⟨RW.empty, ⟨[], 1, none⟩, []⟩).respHeader "Access-Control-Allow-Origin" = none
    ∧ (composedHandler ⟨"OPTIONS", "/add", fun _ => "", .wellFormed []⟩
        ⟨RW.empty, ⟨[], 1, none⟩, []⟩).logOut.filter
          (fun e => e.msg = "request completed") = []
    ∧ (specOrderHandler mainAuthSecret serveMux
        ⟨"OPTIONS", "/add", fun _ => "", .wellFormed []⟩
        ⟨RW.empty, ⟨[], 1, none⟩, []⟩).status = some 200
    ∧ (specOrderHandler mainAuthSecret serveMux
        ⟨"OPTIONS", "/add", fun _ => "", .wellFormed []⟩
        ⟨RW.empty, ⟨[], 1, none⟩, []⟩).respHeader "Access-Control-Allow-Origin"
          = some "*" := by
  decide

/-- C1 as amended: the composed handler nests the interceptors so that,
outermost to innermost, the order is auth, then recovery, then CORS, then
logging, then the upload handler; for every inbound request the auth
interceptor receives it first — in particular a request failing the auth
check is rejected with `401` before any other interceptor acts. -/
theorem C1_amended (secret : String) (inner : GoHandler) (r : Request) (st : St) :
    mainHandler secret inner r st =
        Auth secret (RecoveryMiddleware (CORSMiddleware (LoggingMiddleware inner))) r st
    ∧ (r.header "Authorization" ≠ secret →
        mainHandler secret inner r st =
          .ok { st with
            log := st.log ++ [⟨"WARN", "unauthorized access", [("path", r.path)]⟩],
            rw := httpError st.rw "Unauthorized" 401 }) := by
  constructor
  · rfl
  · intro h
    simp [mainHandler, Auth, h]

/-- Witness for C1_amended at a concrete request with a wrong
`Authorization` value. -/
theorem C1_amended_witness :
    mainHandler "s" serveMux ⟨"GET", "/add", fun _ => "wrong", .wellFormed []⟩
        ⟨RW.empty, ⟨[], 1, none⟩, []⟩ =
      .ok ⟨httpError RW.empty "Unauthorized" 401, ⟨[], 1, none⟩,
        [⟨"WARN", "unauthorized access", [("path", "/add")]⟩]⟩ :=
  (C1_amended "s" serveMux ⟨"GET", "/add", fun _ => "wrong", .wellFormed []⟩
    ⟨RW.empty, ⟨[], 1, none⟩, []⟩).2 (by decide)

/-- C2 counterexample. The claim asserts every `OPTIONS` request — with
any headers, including a missing `Authorization` — gets `200` with the
three CORS headers. On the concrete request `OPTIONS /x` with no
`Authorization` header, the composed handler answers `401` and sets no
CORS header, because auth is nested outside CORS. -/
theorem C2_counterexample :
    (composedHandler ⟨"OPTIONS", "/x", fun _ => "", .wellFormed []⟩
        ⟨RW.empty, ⟨[], 1, none⟩, []⟩).status = some 401
    ∧ (composedHandler ⟨"OPTIONS", "/x", fun _ => "", .wellFormed []⟩
        ⟨RW.empty, ⟨[], 1, none⟩, []⟩).respHeader "Access-Control-Allow-Origin"
          = none := by
  decide

/-- C2 as amended: for every `OPTIONS` request whose `Authorization`
header equals the secret, the composed handler responds `200` with the
three CORS headers set, an empty body, an unchanged database, and without
invoking any inner handler (the result does not depend on the inner
handler). -/
theorem C2_amended (secret : String) (inner : GoHandler) (r : Request)
    (db : DB) (lg : List LogEvent)
    (hm : r.method = "OPTIONS") (ha : r.header "Authorization" = secret) :
    mainHandler secret inner r ⟨RW.empty, db, lg⟩ =
        .ok ⟨(corsHeadersOn RW.empty).writeHeader 200, db, lg⟩
    ∧ (mainHandler secret inner r ⟨RW.empty, db, lg⟩).status = some 200
    ∧ (mainHandler secret inner r ⟨RW.empty, db, lg⟩).respHeader
        "Access-Control-Allow-Origin" = some "*"
    ∧ (mainHandler secret inner r ⟨RW.empty, db, lg⟩).respHeader
        "Access-Control-Allow-Methods" = some "POST, GET, OPTIONS"
    ∧ (mainHandler secret inner r ⟨RW.empty, db, lg⟩).respHeader
        "Access-Control-Allow-Headers" = some "Content-Type"
    ∧ (mainHandler secret inner r ⟨RW.empty, db, lg⟩).dbOut = db
    ∧ (mainHandler secret inner r ⟨RW.empty, db, lg⟩).bodyOut = "" := by
  have h1 : mainHandler secret inner r ⟨RW.empty, db, lg⟩ =
      .ok ⟨(corsHeadersOn RW.empty).writeHeader 200, db, lg⟩ := by
    simp [mainHandler, Auth, ha, RecoveryMiddleware, CORSMiddleware, hm, corsHeadersOn]
  refine ⟨h1, ?_, ?_, ?_, ?_, ?_, ?_⟩ <;> rw [h1] <;> rfl

/-- Witness for C2_amended at a concrete authorized `OPTIONS` request. -/
theorem C2_amended_witness :
    (mainHandler "s" serveMux
        ⟨"OPTIONS", "/x", fun k => if k = "Authorization" then "s" else "",
          .wellFormed []⟩
        ⟨RW.empty, ⟨[], 1, none⟩, []⟩).status = some 200 :=
  (C2_amended "s" serveMux
    ⟨"OPTIONS", "/x", fun k => if k = "Authorization" then "s" else "",
      .wellFormed []⟩
    ⟨[], 1, none⟩ [] (by decide) (by decide)).2.1

/-- C5: for every non-`OPTIONS` request whose `Authorization` header is
not exactly the secret, the composed handler answers `401`; the result is
independent of the inner handler (so the upload handler is never invoked)
and the database component is returned unchanged (no insert attempted). -/
theorem C5_holds (secret : String) (inner : GoHandler) (r : Request)
    (db : DB) (lg : List LogEvent)
    (_hm : r.method ≠ "OPTIONS") (ha : r.header "Authorization" ≠ secret) :
    mainHandler secret inner r ⟨RW.empty, db, lg⟩ =
        .ok ⟨httpError RW.empty "Unauthorized" 401, db,
          lg ++ [⟨"WARN", "unauthorized access", [("path", r.path)]⟩]⟩
    ∧ (mainHandler secret inner r ⟨RW.empty, db, lg⟩).status = some 401
    ∧ (mainHandler secret inner r ⟨RW.empty, db, lg⟩).dbOut = db := by
  have h1 : mainHandler secret inner r ⟨RW.empty, db, lg⟩ =
      .ok ⟨httpError RW.empty "Unauthorized" 401, db,
        lg ++ [⟨"WARN", "unauthorized access", [("path", r.path)]⟩]⟩ := by
    simp [mainHandler, Auth, ha]
  refine ⟨h1, ?_, ?_⟩ <;> rw [h1] <;> rfl

/-- Witness for C5 at a concrete `GET /add` with a missing
`Authorization` header. -/
theorem C5_witness :
    (mainHandler "s" serveMux ⟨"GET", "/add", fun _ => "", .wellFormed []⟩
        ⟨RW.empty, ⟨[], 1, none⟩, []⟩).status = some 401 :=
  (C5_holds "s" serveMux ⟨"GET", "/add", fun _ => "", .wellFormed []⟩
    ⟨[], 1, none⟩ [] (by decide) (by decide)).2.1

/-- C3: evaluation of the code at a failing input. A valid authorized
upload of the five bytes "hello" as `a.txt` against a store whose next
generated identifier is 65 yields status `201` — but the response body is
`"File uploaded successfully with ID: A"`: the code builds the body with
Go's `string(rune(fileID))`, which produces the single Unicode code point
65 (`"A"`), not the decimal text `"65"` of the assigned identifier, so
the body does not contain a plain-text representation of the id. -/
theorem C3_failing_eval :
    (composedHandler
        ⟨"POST", "/add", fun k => if k = "Authorization" then "your-secret-here" else "",
          .wellFormed [⟨"file", "a.txt", "text/plain", [104, 101, 108, 108, 111]⟩]⟩
        ⟨RW.empty, ⟨[], 65, none⟩, []⟩).status = some 201
    ∧ (composedHandler
        ⟨"POST", "/add", fun k => if k = "Authorization" then "your-secret-here" else "",
          .wellFormed [⟨"file", "a.txt", "text/plain", [104, 101, 108, 108, 111]⟩]⟩
        ⟨RW.empty, ⟨[], 65, none⟩, []⟩).bodyOut
          = "File uploaded successfully with ID: A"
    ∧ (composedHandler
        ⟨"POST", "/add", fun k => if k = "Authorization" then "your-secret-here" else "",
          .wellFormed [⟨"file", "a.txt", "text/plain", [104, 101, 108, 108, 111]⟩]⟩
        ⟨RW.empty, ⟨[], 65, none⟩, []⟩).dbOut.rows
          = [⟨65, "a.txt", "text/plain", 5, [104, 101, 108, 108, 111]⟩] := by
  decide

/-- C4 counterexample. The claim asserts every request to `/add` with a
method other than POST gets `405`. Concretely: `GET /add` with no
`Authorization` header gets `401` (auth, nested outermost, rejects it
first), and `OPTIONS /add` with the correct secret gets `200` (the CORS
preflight short-circuit answers before the mux runs); neither is `405`. -/
theorem C4_counterexample :
    (composedHandler ⟨"GET", "/add", fun _ => "", .wellFormed []⟩
        ⟨RW.empty, ⟨[], 1, none⟩, []⟩).status = some 401
    ∧ (composedHandler
        ⟨"OPTIONS", "/add",
          fun k => if k = "Authorization" then "your-secret-here" else "",
          .wellFormed []⟩
        ⟨RW.empty, ⟨[], 1, none⟩, []⟩).status = some 200 := by
  decide

/-- C4 as amended: for every request to `/add` whose method is neither
POST nor OPTIONS and whose `Authorization` header equals the configured
secret literal, the composed handler answers `405 Method Not Allowed` and
the database is unchanged (no row inserted); the upload handler's method
check is the first thing that touches such a request inside the mux. -/
theorem C4_amended (r : Request) (db : DB) (lg : List LogEvent)
    (hp : r.path = "/add") (hm : r.method ≠ "POST") (ho : r.method ≠ "OPTIONS")
    (ha : r.header "Authorization" = mainAuthSecret) :
    composedHandler r ⟨RW.empty, db, lg⟩ =
        .ok ⟨httpError (corsHeadersOn RW.empty) "Method not allowed" 405, db,
          lg ++ [⟨"INFO", "request completed", [("method", r.method), ("path", r.path)]⟩]⟩
    ∧ (composedHandler r ⟨RW.empty, db, lg⟩).status = some 405
    ∧ (composedHandler r ⟨RW.empty, db, lg⟩).dbOut = db := by
  have h1 : composedHandler r ⟨RW.empty, db, lg⟩ =
      .ok ⟨httpError (corsHeadersOn RW.empty) "Method not allowed" 405, db,
        lg ++ [⟨"INFO", "request completed", [("method", r.method), ("path", r.path)]⟩]⟩ := by
    simp [composedHandler, mainHandler, Auth, ha, RecoveryMiddleware,
      CORSMiddleware, ho, LoggingMiddleware, serveMux, hp, addHandler, hm,
      corsHeadersOn]
  refine ⟨h1, ?_, ?_⟩ <;> rw [h1] <;> rfl

/-- Witness for C4_amended at a concrete authorized `GET /add`. -/
theorem C4_amended_witness :
    (composedHandler
        ⟨"GET", "/add",
          fun k => if k = "Authorization" then "your-secret-here" else "",
          .wellFormed []⟩
        ⟨RW.empty, ⟨[], 1, none⟩, []⟩).status = some 405 :=
  (C4_amended
    ⟨"GET", "/add",
      fun k => if k = "Authorization" then "your-secret-here" else "",
      .wellFormed []⟩
    ⟨[], 1, none⟩ [] (by decide) (by decide) (by decide) (by decide)).2.1

/-- C8 counterexample. The claim asserts the auth interceptor's secret is
the one loaded by the configuration component. Concretely, the literal
`main` passes to `Auth` (`"your-secret-here"`) differs both from
`LoadConfig`'s result when the environment variable `auth` is absent
(the fallback `"default"`) and from its result when `auth` is set
(e.g. to `"s3cret"`): `LoadConfig` plays no part in the composed chain. -/
theorem C8_counterexample :
    mainAuthSecret ≠ (LoadConfig (fun _ => "")).AuthSecret
    ∧ mainAuthSecret ≠
        (LoadConfig (fun k => if k = "auth" then "s3cret" else "")).AuthSecret := by
  decide

/-- C8 as amended: the secret the auth interceptor compares the
`Authorization` header against is the fixed literal `"your-secret-here"`
hard-coded at the composition site in `main`; the configuration
component's `LoadConfig` (environment variable `auth`, fallback literal
`"default"` when absent) is defined but not used by the composed
pipeline, and a request is rejected with `401` exactly unless its
`Authorization` header equals the hard-coded literal. -/
theorem C8_amended (r : Request) (db : DB) (lg : List LogEvent) :
    composedHandler r ⟨RW.empty, db, lg⟩ =
        mainHandler "your-secret-here" serveMux r ⟨RW.empty, db, lg⟩
    ∧ (LoadConfig (fun _ => "")).AuthSecret = "default"
    ∧ (r.header "Authorization" ≠ "your-secret-here" →
        (composedHandler r ⟨RW.empty, db, lg⟩).status = some 401) := by
  refine ⟨rfl, rfl, ?_⟩
  intro h
  have h1 : composedHandler r ⟨RW.empty, db, lg⟩ =
      .ok ⟨httpError RW.empty "Unauthorized" 401, db,
        lg ++ [⟨"WARN", "unauthorized access", [("path", r.path)]⟩]⟩ := by
    simp [composedHandler, mainHandler, Auth, mainAuthSecret, h]
  rw [h1]
  rfl

/-- Witness for C8_amended at a concrete request carrying the config
fallback `"default"` as its `Authorization` value — still rejected. -/
theorem C8_amended_witness :
    (composedHandler
        ⟨"POST", "/add", fun k => if k = "Authorization" then "default" else "",
          .wellFormed []⟩
        ⟨RW.empty, ⟨[], 1, none⟩, []⟩).status = some 401 :=
  (C8_amended
    ⟨"POST", "/add", fun k => if k = "Authorization" then "default" else "",
      .wellFormed []⟩
    ⟨[], 1, none⟩ []).2.2 (by decide)

/-- C6: for every POST to `/add` whose multipart body is malformed,
exceeds the 10 MiB bound, or lacks a form field named `file`, the upload
handler (reached through the mux) responds `400 Bad Request` and the
database is unchanged — no row is inserted. -/
theorem C6_holds (r : Request) (db : DB) (lg : List LogEvent)
    (hp : r.path = "/add") (hm : r.method = "POST")
    (hb : r.body = .malformed ∨ r.body.exceedsBound = true
      ∨ r.body.lacksFileField = true) :
    (serveMux r ⟨RW.empty, db, lg⟩).status = some 400
    ∧ (serveMux r ⟨RW.empty, db, lg⟩).dbOut = db := by
  rcases hb with hb | hb | hb
  · have h1 : serveMux r ⟨RW.empty, db, lg⟩ =
        .ok ⟨httpError RW.empty "Failed to parse form" 400, db, lg⟩ := by
      simp [serveMux, hp, addHandler, hm, hb, parseMultipartForm]
    exact ⟨by rw [h1]; rfl, by rw [h1]; rfl⟩
  · cases hbody : r.body with
    | malformed => rw [hbody] at hb; simp [MultipartBody.exceedsBound] at hb
    | wellFormed ps =>
      rw [hbody] at hb
      have hgt : (ps.map (fun p => p.content.length)).sum > 10 <<< 20 := by
        simpa [MultipartBody.exceedsBound] using hb
      have hgt2 : 10485760 < (ps.map (fun p => p.content.length)).sum := hgt
      have h1 : serveMux r ⟨RW.empty, db, lg⟩ =
          .ok ⟨httpError RW.empty "Failed to parse form" 400, db, lg⟩ := by
        simp [serveMux, hp, addHandler, hm, hbody, parseMultipartForm, hgt2]
      exact ⟨by rw [h1]; rfl, by rw [h1]; rfl⟩
  · cases hbody : r.body with
    | malformed => rw [hbody] at hb; simp [MultipartBody.lacksFileField] at hb
    | wellFormed ps =>
      rw [hbody] at hb
      have hfind : ps.find? (fun p => p.fieldName = "file") = none := by
        simpa [MultipartBody.lacksFileField, Option.isNone_iff_eq_none] using hb
      by_cases hgt : 10485760 < (ps.map (fun p => p.content.length)).sum
      · have h1 : serveMux r ⟨RW.empty, db, lg⟩ =
            .ok ⟨httpError RW.empty "Failed to parse form" 400, db, lg⟩ := by
          simp [serveMux, hp, addHandler, hm, hbody, parseMultipartForm, hgt]
        exact ⟨by rw [h1]; rfl, by rw [h1]; rfl⟩
      · have h1 : serveMux r ⟨RW.empty, db, lg⟩ =
            .ok ⟨httpError RW.empty "Failed to get file" 400, db, lg⟩ := by
          simp [serveMux, hp, addHandler, hm, hbody, parseMultipartForm, hgt,
            formFile, hfind]
        exact ⟨by rw [h1]; rfl, by rw [h1]; rfl⟩

/-- Witness for C6 at a concrete POST with a malformed body. -/
theorem C6_witness :
    (serveMux ⟨"POST", "/add", fun _ => "", .malformed⟩
        ⟨RW.empty, ⟨[], 1, none⟩, []⟩).status = some 400 :=
  (C6_holds ⟨"POST", "/add", fun _ => "", .malformed⟩ ⟨[], 1, none⟩ []
    (by decide) (by decide) (Or.inl rfl)).1

/-- C7: every row present after a run of the upload handler either was
already stored or satisfies `size = len(content)` — the handler passes the
multipart file header's size, which is the byte length of the very
content bytes it forwards, so every row it inserts satisfies the
invariant. -/
theorem C7_holds (r : Request) (st st' : St) (h : addHandler r st = .ok st') :
    ∀ row ∈ st'.db.rows, row ∈ st.db.rows ∨ row.size = row.content.length := by
  intro row hrow
  unfold addHandler at h
  split at h
  · cases h
    exact Or.inl hrow
  · split at h
    · cases h
      exact Or.inl hrow
    · split at h
      · cases h
        exact Or.inl hrow
      · rename_i part
        dsimp only [] at h
        split at h
        · cases h
          exact Or.inl hrow
        · rename_i fileID dbNew hins
          cases h
          unfold DB.insert at hins
          split at hins
          · cases hins
          · cases hins
            rcases List.mem_append.mp hrow with hold | hnew
            · exact Or.inl hold
            · right
              rw [List.mem_singleton.mp hnew]
              rfl

/-- Witness for C7: a concrete successful upload of two bytes, whose
inserted row satisfies the size invariant. -/
theorem C7_witness :
    (⟨1, "a.txt", "text/plain", 2, [104, 105]⟩ : StoredFile) ∈
        (⟨[], 1, none⟩ : DB).rows
    ∨ (⟨1, "a.txt", "text/plain", 2, [104, 105]⟩ : StoredFile).size
        = (⟨1, "a.txt", "text/plain", 2, [104, 105]⟩ : StoredFile).content.length :=
  C7_holds
    ⟨"POST", "/add", fun _ => "", .wellFormed [⟨"file", "a.txt", "text/plain", [104, 105]⟩]⟩
    ⟨RW.empty, ⟨[], 1, none⟩, []⟩
    ⟨⟨[], some 201, "File uploaded successfully with ID: \x01"⟩,
      ⟨[⟨1, "a.txt", "text/plain", 2, [104, 105]⟩], 2, none⟩, []⟩
    (by decide)
    ⟨1, "a.txt", "text/plain", 2, [104, 105]⟩
    (by decide)

/-- C9: panics beneath the recovery interceptor are contained. If the
terminal handler, invoked on the state the CORS layer hands it, panics,
the composed handler still completes normally: recovery logs the panic
value and applies `http.Error(w, "Internal Server Error", 500)` to the
panic-time writer, which commits status `500` whenever the panicking code
had not already committed a status; and no run of the composed handler,
for any inner handler, request, or state, ever ends in an uncaught panic
— the fault never propagates out, so the process keeps serving. -/
theorem C9_holds (secret : String) (inner : GoHandler) (r : Request)
    (db : DB) (lg : List LogEvent) (st' : St) (v : String)
    (ho : r.method ≠ "OPTIONS") (ha : r.header "Authorization" = secret)
    (hpan : inner r ⟨corsHeadersOn RW.empty, db, lg⟩ = .panicked st' v) :
    mainHandler secret inner r ⟨RW.empty, db, lg⟩ =
        .ok ⟨httpError st'.rw "Internal Server Error" 500, st'.db,
          st'.log ++ [⟨"ERROR", "panic recovered", [("error", v)]⟩]⟩
    ∧ (st'.rw.status = none →
        (mainHandler secret inner r ⟨RW.empty, db, lg⟩).status = some 500)
    ∧ ∀ (inner2 : GoHandler) (r2 : Request) (st2 : St),
        (mainHandler secret inner2 r2 st2).isPanic = false := by
  simp only [corsHeadersOn] at hpan
  have h1 : mainHandler secret inner r ⟨RW.empty, db, lg⟩ =
      .ok ⟨httpError st'.rw "Internal Server Error" 500, st'.db,
        st'.log ++ [⟨"ERROR", "panic recovered", [("error", v)]⟩]⟩ := by
    simp [mainHandler, Auth, ha, RecoveryMiddleware, CORSMiddleware, ho,
      LoggingMiddleware, hpan]
  refine ⟨h1, ?_, ?_⟩
  · intro h2
    rw [h1]
    simp [HRes.status, HRes.state, httpError, RW.write, RW.writeHeader,
      RW.setHeader, RW.delHeader, h2]
  · intro inner2 r2 st2
    simp only [mainHandler, Auth]
    split
    · rfl
    · cases hres : CORSMiddleware (LoggingMiddleware inner2) r2 st2 with
      | ok st3 => simp [RecoveryMiddleware, hres, HRes.isPanic]
      | panicked st3 v3 => simp [RecoveryMiddleware, hres, HRes.isPanic]

/-- Witness for C9: a terminal handler that always panics still yields a
normal `500` response through the composed chain. -/
theorem C9_witness :
    (mainHandler "s" (fun _ st => .panicked st "boom")
        ⟨"GET", "/p", fun k => if k = "Authorization" then "s" else "", .wellFormed []⟩
        ⟨RW.empty, ⟨[], 1, none⟩, []⟩).status = some 500 :=
  (C9_holds "s" (fun _ st => .panicked st "boom")
    ⟨"GET", "/p", fun k => if k = "Authorization" then "s" else "", .wellFormed []⟩
    ⟨[], 1, none⟩ [] ⟨corsHeadersOn RW.empty, ⟨[], 1, none⟩, []⟩ "boom"
    (by decide) (by decide) rfl).2.1 (by decide)

/-- C10: the `middlewares`-package `Auth` and `CORSMiddleware` are
extensionally equal to the `main`-package copies — for every secret,
inner handler, and request they produce the same behaviour (the source
files carry the same code twice). -/
theorem C10_holds :
    middlewares.Auth = Auth ∧ middlewares.CORSMiddleware = CORSMiddleware :=
  ⟨rfl, rfl⟩
